import Mathlib

/-!
Upload controller of `static/script.js`.

A shallow embedding of the browser-side form controller: the file-name
check, the size formatter, and the handlers that move the page between its
upload, loading, results and error sections.

Conventions of the embedding.

* JavaScript strings are `String`; the only string operations the script
  uses are concatenation, `toLowerCase` and `endsWith` against ASCII
  literals.
* A section whose `style.display` is `'block'` is visible (`true`), one whose
  `style.display` is `'none'` is hidden (`false`).
* An `async` function is cut at its `await`s: each piece between two awaits
  is a function on the page state, and the event loop decides which pending
  piece or user event runs next.
-/

namespace Baypoint

/-! ## Files and the extension check -/

/-- A `File` object as the script reads it: `file.name` and `file.size`. -/
structure File where
  name : String
  size : Nat
  deriving DecidableEq, Repr

/-- The method `String.prototype.toLowerCase`, character by character.  On the ASCII
letters this is the JavaScript mapping; the letters of the accepted
extensions have no other upper-case form in Unicode whose lower-case form is
an ASCII letter of that set. -/
def toLowerCase (s : String) : String :=
  ⟨s.data.map Char.toLower⟩

/-- The ASCII upper-casing of a string, used to state case independence. -/
def toUpperCase (s : String) : String :=
  ⟨s.data.map Char.toUpper⟩

/-- The method `String.prototype.endsWith`. -/
def endsWith (s suffix : String) : Bool :=
  suffix.data.isSuffixOf s.data

/-- The array `validExtensions` of `isValidFile`. -/
def validExtensions : List String :=
  [".txt", ".pdf", ".doc", ".docx", ".md"]

/-- Source `isValidFile(file)`. -/
def isValidFile (file : File) : Bool :=
  let fileName := toLowerCase file.name
  validExtensions.any (fun ext => endsWith fileName ext)

/-! ## The size formatter -/

/-- The value `Math.round(num / den)` in exact arithmetic: the nearest integer, a tie
going up. -/
def mathRound (num den : Nat) : Nat :=
  (2 * num + den) / (2 * den)

/-- The text JavaScript prints for the number `m / 100`: the integer part,
then the hundredths without trailing zeros. -/
def showHundredths (m : Nat) : String :=
  let whole := toString (m / 100)
  let frac := m % 100
  if frac = 0 then whole
  else if frac % 10 = 0 then whole ++ "." ++ toString (frac / 10)
  else if frac < 10 then whole ++ ".0" ++ toString frac
  else whole ++ "." ++ toString frac

/-- The array `sizes` of `formatFileSize`. -/
def sizes : List String :=
  ["Bytes", "KB", "MB"]

/-- Source `formatFileSize(bytes)`, arithmetic exact.  `Nat.log k bytes` is
`Math.floor(Math.log(bytes) / Math.log(k))`; an index past the end of
`sizes` reads `undefined`, which string concatenation prints as the word
`undefined`. -/
def formatFileSize (bytes : Nat) : String :=
  if bytes = 0 then "0 Bytes"
  else
    let k := 1024
    let i := Nat.log k bytes
    showHundredths (mathRound (bytes * 100) (k ^ i)) ++ " " ++ (sizes[i]?).getD "undefined"

/-- The three units of the specification with their sizes in bytes. -/
def specUnits : List (String × Nat) :=
  [("Bytes", 1), ("KB", 1024), ("MB", 1024 ^ 2)]

/-- The specification's choice of unit: the largest of Bytes, KB, MB whose
size does not exceed `n`. -/
def specUnit (n : Nat) : String × Nat :=
  (specUnits.filter (fun u => u.2 ≤ n)).foldl
    (fun best u => if best.2 ≤ u.2 then u else best) ("Bytes", 1)

/-- The specification's size text: the value scaled by the chosen unit,
rounded to two decimal places, printed without trailing zeros, then the
unit. -/
def specFormatFileSize (n : Nat) : String :=
  let u := specUnit n
  showHundredths (mathRound (n * 100) u.2) ++ " " ++ u.1

/-! ## JSON values as the script observes them -/

/-- A value produced by `response.json()`.  A number is kept as the text
`ToString` prints for it, such as `42`, `0.5` or `1e+21`; the numbers 0 and
-0 both print as `0`, and no other number does. -/
inductive Json where
  | null
  | bool (b : Bool)
  | num (shown : String)
  | str (s : String)
  | arr (xs : List Json)
  | obj (kvs : List (String × Json))

/-- A JavaScript value that may be `undefined` (`none`). -/
abbrev JsValue := Option Json

/-- Truthiness of a JSON value, as `!x` and `x || y` test it. -/
def Json.truthy : Json → Bool
  | .null => false
  | .bool b => b
  | .num shown => shown != "0"
  | .str s => s != ""
  | .arr _ => true
  | .obj _ => true

/-- Truthiness of a possibly undefined value. -/
def JsValue.truthy : JsValue → Bool
  | none => false
  | some v => v.truthy

/-- The message of the `TypeError` thrown when an object cannot be turned
into a primitive value. -/
def toPrimitiveMessage : String :=
  "Cannot convert object to primitive value"

mutual
/-- The abstract operation `ToString` on a JSON value; it can throw.  A
parsed object inherits `Object.prototype.toString` and prints as
`[object Object]`, unless it has an own key `toString`: that value is not
callable, `valueOf` returns the object itself, and the conversion throws a
`TypeError`.  An array prints through `Array.prototype.join`. -/
def jsToString : Json → Except String String
  | .null => .ok "null"
  | .bool b => .ok (if b then "true" else "false")
  | .num shown => .ok shown
  | .str s => .ok s
  | .arr xs => joinElements xs
  | .obj kvs =>
      if kvs.any (fun kv => kv.1 == "toString") then .error toPrimitiveMessage
      else .ok "[object Object]"
/-- The method `Array.prototype.join(",")`: a `null` element prints as
nothing, every other element through `ToString`, first to last. -/
def joinElements : List Json → Except String String
  | [] => .ok ""
  | [x] =>
      (match x with
        | .null => .ok ""
        | y => jsToString y)
  | x :: y :: rest =>
      (match x with
        | .null => .ok ""
        | z => jsToString z) >>= fun first =>
      joinElements (y :: rest) >>= fun others =>
      .ok (first ++ "," ++ others)
end

/-- A value inside a template literal: `undefined` prints as that word. -/
def templateString : JsValue → Except String String
  | none => .ok "undefined"
  | some v => jsToString v

/-- The message of the `TypeError` thrown when property `key` is read from
`null`. -/
def nullReadMessage (key : String) : String :=
  "Cannot read properties of null (reading \x27" ++ key ++ "\x27)"

/-- The property read `v.key` for one of the fixed keys the script uses.  An
object yields its last binding of the key (as `JSON.parse` keeps it), a
missing key and every primitive or array yield `undefined`, and `null`
throws. -/
def getProp (v : Json) (key : String) : Except String JsValue :=
  match v with
  | .null => .error (nullReadMessage key)
  | .obj kvs => .ok (kvs.reverse.lookup key)
  | _ => .ok none

/-- The expression `x || fallback` with a string fallback. -/
def orElse (x : JsValue) (fallback : String) : Json :=
  match x with
  | some v => if v.truthy then v else .str fallback
  | none => .str fallback

/-! ## The page -/

/-- The five progress steps, by element id. -/
inductive StepId where
  | realEstate | financial | market | legal | orchestrator
  deriving DecidableEq, Repr

/-- Element id of a progress step. -/
def StepId.id : StepId → String
  | .realEstate => "step-real-estate"
  | .financial => "step-financial"
  | .market => "step-market"
  | .legal => "step-legal"
  | .orchestrator => "step-orchestrator"

/-- What the script writes on a progress step element. -/
structure Step where
  className : String
  icon : String
  deriving DecidableEq, Repr

/-- The five report types of the download buttons. -/
inductive ReportType where
  | realEstate | financialModeling | marketAnalysis | legal | orchestrator
  deriving DecidableEq, Repr

/-- The string a report type is written as (`data-report`). -/
def ReportType.name : ReportType → String
  | .realEstate => "real_estate"
  | .financialModeling => "financial_modeling"
  | .marketAnalysis => "market_analysis"
  | .legal => "legal"
  | .orchestrator => "orchestrator"

/-- The object `reportKeyMap` of `downloadReport`. -/
def reportKeyMap : ReportType → String
  | .realEstate => "real_estate_report"
  | .financialModeling => "financial_modeling_report"
  | .marketAnalysis => "market_analysis_report"
  | .legal => "legal_report"
  | .orchestrator => "orchestrator_report"

/-- A download the script triggers: the anchor's `download` name and the
text of the blob behind it. -/
structure Download where
  filename : String
  content : String
  deriving DecidableEq, Repr

/-- A network request the script issues. -/
inductive Request where
  | health
  | analyze (file : File)
  deriving DecidableEq, Repr

/-- Everything the script reads or writes: the DOM nodes it holds, the
variable `currentResults`, and a log of its outward effects. -/
structure Page where
  origin : String
  uploadVisible : Bool
  loadingVisible : Bool
  resultsVisible : Bool
  errorVisible : Bool
  files : List File
  fileNameText : String
  analyzeDisabled : Bool
  dragover : Bool
  loadingStatus : String
  steps : StepId → Step
  errorMessage : String
  realEstateContent : String
  financialContent : String
  marketContent : String
  legalContent : String
  orchestratorContent : String
  currentResults : Json
  downloads : List Download
  requests : List Request

/-- Number of sections currently displayed. -/
def Page.visibleCount (p : Page) : Nat :=
  p.uploadVisible.toNat + p.loadingVisible.toNat + p.resultsVisible.toNat + p.errorVisible.toNat

/-- Source `showError(message)`. -/
def showError (message : String) (p : Page) : Page :=
  { p with
    errorMessage := message
    uploadVisible := false
    loadingVisible := false
    resultsVisible := false
    errorVisible := true }

/-- Source `updateFileDisplay(file)`. -/
def updateFileDisplay (file : File) (p : Page) : Page :=
  { p with
    fileNameText := "Selected: " ++ file.name ++ " (" ++ formatFileSize file.size ++ ")"
    analyzeDisabled := false }

/-- Source `handleFileSelect(e)`; `e.target.files` is `fileInput.files`. -/
def handleFileSelect (p : Page) : Page :=
  match p.files.head? with
  | some file => updateFileDisplay file p
  | none => p

/-- Source `handleDragOver(e)`. -/
def handleDragOver (p : Page) : Page :=
  { p with dragover := true }

/-- Source `handleDragLeave(e)`. -/
def handleDragLeave (p : Page) : Page :=
  { p with dragover := false }

/-- Source `handleDrop(e)`; `dropped` is `e.dataTransfer.files`. -/
def handleDrop (dropped : List File) (p : Page) : Page :=
  let p := { p with dragover := false }
  match dropped.head? with
  | some file =>
      if isValidFile file then
        updateFileDisplay file { p with files := dropped }
      else
        showError "Invalid file type. Please upload TXT, PDF, DOC, DOCX, or MD files." p
  | none => p

/-- Source `updateLoadingStatus(status)`. -/
def updateLoadingStatus (status : String) (p : Page) : Page :=
  { p with loadingStatus := status }

/-- Source `updateProgressStep(stepId, state)`. -/
def updateProgressStep (stepId : StepId) (state : String) (p : Page) : Page :=
  let old := p.steps stepId
  let icon :=
    if state = "active" then "..."
    else if state = "completed" then "OK"
    else old.icon
  { p with steps := Function.update p.steps stepId ⟨"step " ++ state, icon⟩ }

/-- Source `resetProgressSteps()`. -/
def resetProgressSteps (p : Page) : Page :=
  { p with steps := fun _ => ⟨"step", "..."⟩ }

/-- The right-hand side `result.key || fallback`, converted to the string
that an assignment to `textContent` stores.  The property read throws on
`null`, the conversion on a value `ToString` rejects. -/
def paneText (result : Json) (key fallback : String) : Except String String :=
  match getProp result key with
  | .error message => .error message
  | .ok field => jsToString (orElse field fallback)

/-- Source `displayResults(result)`: the page it reaches, and the message of
the exception when one of its statements throws.  The panes assigned before
the throwing statement keep their new text. -/
def displayResults (result : Json) (p : Page) : Page × Option String :=
  match paneText result "real_estate_report" "No real estate analysis available." with
  | .error message => (p, some message)
  | .ok realEstate =>
  let p := { p with realEstateContent := realEstate }
  match paneText result "financial_modeling_report"
      "No financial modeling analysis available." with
  | .error message => (p, some message)
  | .ok financial =>
  let p := { p with financialContent := financial }
  match paneText result "market_analysis_report" "No market analysis available." with
  | .error message => (p, some message)
  | .ok market =>
  let p := { p with marketContent := market }
  match paneText result "legal_report" "No legal analysis available." with
  | .error message => (p, some message)
  | .ok legal =>
  let p := { p with legalContent := legal }
  match paneText result "orchestrator_report" "No orchestrator report available." with
  | .error message => (p, some message)
  | .ok orchestrator =>
  let p := { p with orchestratorContent := orchestrator }
  ({ p with loadingVisible := false, resultsVisible := true }, none)

/-- Source `resetForm()`. -/
def resetForm (p : Page) : Page :=
  { p with
    files := []
    fileNameText := ""
    analyzeDisabled := true
    currentResults := .null
    uploadVisible := true
    loadingVisible := false
    resultsVisible := false
    errorVisible := false }

/-- The click handler of the retry button. -/
def retry (p : Page) : Page :=
  { p with errorVisible := false, uploadVisible := true }

/-- Source `downloadReport(reportType)`.  The blob is built from the report
text and then the file name from `report_id`; a conversion that throws ends
the handler before the anchor exists, so nothing is downloaded. -/
def downloadReport (reportType : ReportType) (p : Page) : Page :=
  if !p.currentResults.truthy then p
  else
    let reportKey := reportKeyMap reportType
    match getProp p.currentResults reportKey, getProp p.currentResults "report_id" with
    | .ok reportContent, .ok reportId =>
        if !JsValue.truthy reportContent then
          showError ("No " ++ reportType.name ++ " report available.") p
        else
          match templateString reportContent, templateString reportId with
          | .ok content, .ok idText =>
              { p with downloads := p.downloads ++
                  [⟨idText ++ "_" ++ reportType.name ++ ".txt", content⟩] }
          | _, _ => p
    | _, _ => p

/-! ## `handleSubmit`, cut at its awaits -/

/-- How the body of a response reads through `response.json()`: the promise
rejects with a `SyntaxError` carrying `message`, or resolves to a value. -/
inductive Body where
  | unparseable (message : String)
  | parsed (value : Json)

/-- A response of the analyze endpoint. -/
structure Response where
  status : Nat
  body : Body

/-- The getter `response.ok`: the status is in the range 200 to 299. -/
def Response.ok (r : Response) : Bool :=
  decide (200 ≤ r.status) && decide (r.status ≤ 299)

/-- How the promise of `fetch(API_URL, ...)` settles. -/
inductive FetchOutcome where
  | resolved (response : Response)
  | rejected (message : String)

/-- Where a running `handleSubmit` is suspended. -/
inductive Stage where
  | fetching
  | readingError (response : Response)
  | delaying (k : Nat) (response : Response)
  | readingBody (response : Response)

/-- The `catch` block of `handleSubmit`, given `error.message`. -/
def catchSubmit (message : String) (p : Page) : Page :=
  showError (if message != "" then message else "An error occurred while analyzing the file.") p

/-- Source `handleSubmit(e)` up to `await fetch(...)`.  With no file it
returns at once; otherwise it leaves the call suspended on the request. -/
def handleSubmit (p : Page) : Page × Option Stage :=
  match p.files.head? with
  | none => (showError "Please select a file first." p, none)
  | some file =>
      let p := { p with
        uploadVisible := false
        errorVisible := false
        loadingVisible := true
        resultsVisible := false }
      let p := resetProgressSteps p
      let p := updateLoadingStatus "Uploading file..." p
      let p := { p with requests := p.requests ++ [Request.analyze file] }
      (p, some Stage.fetching)

/-- The piece of `handleSubmit` that runs when the request settles. -/
def afterFetch (outcome : FetchOutcome) (p : Page) : Page × Option Stage :=
  match outcome with
  | .rejected message => (catchSubmit message p, none)
  | .resolved response =>
      if !response.ok then (p, some (Stage.readingError response))
      else
        let p := updateLoadingStatus "Analyzing property fundamentals..." p
        let p := updateProgressStep .realEstate "active" p
        (p, some (Stage.delaying 0 response))

/-- The piece after `await response.json().catch(...)` on the failure path:
the `throw new Error(...)` and the `catch` block it lands in. -/
def afterErrorBody (response : Response) (p : Page) : Page :=
  let errorData : Json :=
    match response.body with
    | .unparseable _ => .obj [("error", .str "Unknown error occurred")]
    | .parsed value => value
  match getProp errorData "error" with
  | .error message => catchSubmit message p
  | .ok field =>
      match jsToString (orElse field ("Server error: " ++ toString response.status)) with
      | .ok thrown => catchSubmit thrown p
      | .error message => catchSubmit message p

/-- The piece that runs when the `k`-th `delay(2000)` elapses. -/
def afterDelay (k : Nat) (response : Response) (p : Page) : Page × Option Stage :=
  match k with
  | 0 =>
      let p := updateProgressStep .realEstate "completed" p
      let p := updateLoadingStatus "Performing financial modeling..." p
      let p := updateProgressStep .financial "active" p
      (p, some (Stage.delaying 1 response))
  | 1 =>
      let p := updateProgressStep .financial "completed" p
      let p := updateLoadingStatus "Analyzing market conditions..." p
      let p := updateProgressStep .market "active" p
      (p, some (Stage.delaying 2 response))
  | 2 =>
      let p := updateProgressStep .market "completed" p
      let p := updateLoadingStatus "Analyzing legal and compliance..." p
      let p := updateProgressStep .legal "active" p
      (p, some (Stage.delaying 3 response))
  | 3 =>
      let p := updateProgressStep .legal "completed" p
      let p := updateLoadingStatus "Synthesizing final recommendation..." p
      let p := updateProgressStep .orchestrator "active" p
      (p, some (Stage.delaying 4 response))
  | _ =>
      let p := updateProgressStep .orchestrator "completed" p
      let p := updateLoadingStatus "Finalizing..." p
      (p, some (Stage.readingBody response))

/-- The piece after `await response.json()` on the success path. -/
def afterBody (response : Response) (p : Page) : Page :=
  match response.body with
  | .unparseable message => catchSubmit message p
  | .parsed result =>
      let p := { p with currentResults := result }
      match displayResults result p with
      | (q, none) => q
      | (q, some message) => catchSubmit message q

/-- Resume a suspended `handleSubmit` whose awaited promise is not the
request itself. -/
def resumeSubmit (stage : Stage) (p : Page) : Page × Option Stage :=
  match stage with
  | .fetching => (p, some .fetching)
  | .readingError response => (afterErrorBody response p, none)
  | .delaying k response => afterDelay k response p
  | .readingBody response => (afterBody response p, none)

/-! ## Health probe and bulk download -/

/-- Source `checkServerHealth()` after its `await`: `some ok` when the probe
got a response, `none` when the request failed. -/
def afterHealth (outcome : Option Bool) (p : Page) : Page :=
  match outcome with
  | some ok =>
      if !ok then
        showError "Server is not responding. Please make sure the Flask server is running." p
      else p
  | none =>
      showError
        ("Cannot connect to server. Please make sure the Flask server is running on " ++ p.origin) p

/-- The report types `downloadAllReports` walks through, in order. -/
def allReportTypes : List ReportType :=
  [.realEstate, .financialModeling, .marketAnalysis, .legal, .orchestrator]

/-! ## The event loop -/

/-- The page together with what is pending on the event loop. -/
structure World where
  page : Page
  healthPending : Bool
  submits : List Stage
  timers : List (List ReportType)

/-- Source `downloadAllReports()`: the timers it sets fire in the order of
their delays, so one call adds one queue. -/
def downloadAllReports (w : World) : World :=
  if !w.page.currentResults.truthy then w
  else { w with timers := w.timers ++ [allReportTypes] }

/-- One turn of the event loop. -/
inductive Event where
  | healthSettled (outcome : Option Bool)
  | change (files : List File)
  | dragOver
  | dragLeave
  | drop (files : List File)
  | submit
  | fetchSettled (i : Nat) (outcome : FetchOutcome)
  | resume (i : Nat)
  | retry
  | newAnalysis
  | downloadClick (reportType : ReportType)
  | downloadAll
  | timer (i : Nat)

/-- Put back a suspended call, or drop it when it has finished. -/
def settle (w : World) (i : Nat) (r : Page × Option Stage) : World :=
  match r.2 with
  | some stage => { w with page := r.1, submits := w.submits.set i stage }
  | none => { w with page := r.1, submits := w.submits.eraseIdx i }

/-- The effect of one event.  An event that names nothing pending changes
nothing. -/
def step (w : World) : Event → World
  | .healthSettled outcome =>
      if w.healthPending then
        { w with page := afterHealth outcome w.page, healthPending := false }
      else w
  | .change files =>
      { w with page := handleFileSelect { w.page with files := files } }
  | .dragOver => { w with page := handleDragOver w.page }
  | .dragLeave => { w with page := handleDragLeave w.page }
  | .drop files => { w with page := handleDrop files w.page }
  | .submit =>
      let r := handleSubmit w.page
      match r.2 with
      | some stage => { w with page := r.1, submits := w.submits ++ [stage] }
      | none => { w with page := r.1 }
  | .fetchSettled i outcome =>
      match w.submits[i]? with
      | some .fetching => settle w i (afterFetch outcome w.page)
      | _ => w
  | .resume i =>
      match w.submits[i]? with
      | some .fetching => w
      | some stage => settle w i (resumeSubmit stage w.page)
      | none => w
  | .retry => { w with page := retry w.page }
  | .newAnalysis => { w with page := resetForm w.page }
  | .downloadClick reportType => { w with page := downloadReport reportType w.page }
  | .downloadAll => downloadAllReports w
  | .timer i =>
      match w.timers[i]? with
      | some (reportType :: rest) =>
          { w with
            page := downloadReport reportType w.page
            timers := if rest.isEmpty then w.timers.eraseIdx i else w.timers.set i rest }
      | _ => w

/-- Run a sequence of events. -/
def run (w : World) (events : List Event) : World :=
  events.foldl step w

/-- The page as the HTML delivers it and `DOMContentLoaded` leaves it: only
the upload section shown, nothing selected, submission disabled, no result,
and the health probe on its way.  Texts the HTML supplies are taken empty. -/
def initialWorld (origin : String) : World where
  page :=
    { origin := origin
      uploadVisible := true
      loadingVisible := false
      resultsVisible := false
      errorVisible := false
      files := []
      fileNameText := ""
      analyzeDisabled := true
      dragover := false
      loadingStatus := ""
      steps := fun _ => ⟨"step", ""⟩
      errorMessage := ""
      realEstateContent := ""
      financialContent := ""
      marketContent := ""
      legalContent := ""
      orchestratorContent := ""
      currentResults := .null
      downloads := []
      requests := [Request.health] }
  healthPending := true
  submits := []
  timers := []

/-! ## Sample inputs -/

/-- What the specification asks of one report pane showing `shown` for a
result `result`: the field `key` when it holds non-empty text, the fixed
`fallback` when the field is missing. -/
def PaneShows (result : Json) (key fallback shown : String) : Prop :=
  (∀ s : String, getProp result key = .ok (some (.str s)) → s ≠ "" → shown = s)
    ∧ (getProp result key = .ok none → shown = fallback)

/-- The field `key` of `result`, where present, converts to text without
throwing. -/
def fieldPrints (result : Json) (key : String) : Bool :=
  match getProp result key with
  | .ok (some v) =>
      (match jsToString v with
        | .ok _ => true
        | .error _ => false)
  | _ => true

/-- The page origin used in the sample runs. -/
def sampleOrigin : String := "http://localhost:5000"

/-- A file with an accepted extension. -/
def sampleFile : File := ⟨"deal.pdf", 2048⟩

/-- A file with no accepted extension. -/
def sampleProgram : File := ⟨"setup.exe", 4096⟩

/-- The fields of the sample result: four of the five reports, the legal one
missing. -/
def sampleFields : List (String × Json) :=
  [("report_id", .str "r1"),
    ("real_estate_report", .str "Property looks sound."),
    ("financial_modeling_report", .str "Cash flow is positive."),
    ("market_analysis_report", .str "Demand is rising."),
    ("orchestrator_report", .str "Proceed.")]

/-- An analyze result with four of the five reports: the legal one is
missing. -/
def sampleResult : Json :=
  .obj sampleFields

/-- An analyze result whose first report is not text but an object with an
own `toString` key. -/
def hostileResult : Json :=
  .obj [("real_estate_report", .obj [("toString", .num "1")]),
    ("market_analysis_report", .str "Demand is rising.")]

/-- The events of a submission answered with status 200 and
`hostileResult`. -/
def hostileSubmit : List Event :=
  [.fetchSettled 0 (.resolved ⟨200, .parsed hostileResult⟩),
    .resume 0, .resume 0, .resume 0, .resume 0, .resume 0, .resume 0]

/-- A successful analyze response carrying `sampleResult`. -/
def sampleResponse : Response := ⟨200, .parsed sampleResult⟩

/-- A failed analyze response whose body is not JSON. -/
def sampleFailure : Response := ⟨500, .unparseable "Unexpected token < in JSON at position 0"⟩

/-- The events of one submission that succeeds: the response arrives, the
five delays elapse, the body is read. -/
def completeSubmit : List Event :=
  [.fetchSettled 0 (.resolved sampleResponse),
    .resume 0, .resume 0, .resume 0, .resume 0, .resume 0, .resume 0]

/-- A file is chosen and submitted; the request is in flight. -/
def loadingWorld : World :=
  run (initialWorld sampleOrigin) [.change [sampleFile], .submit]

/-- The health probe succeeded and one submission ran to its results. -/
def resultsWorld : World :=
  run (initialWorld sampleOrigin)
    ([.healthSettled (some true), .change [sampleFile], .submit] ++ completeSubmit)

/-- A file is submitted before the health probe has settled; the probe then
fails while the analyze request is in flight, and the analyze request
succeeds. -/
def lateProbe : List Event :=
  [.change [sampleFile], .submit, .healthSettled none] ++ completeSubmit

/-! ## Letter case of characters -/

theorem toNat_ofNat_add (n : Nat) (h1 : 65 ≤ n) (h2 : n ≤ 90) :
    (Char.ofNat (n + 32)).toNat = n + 32 := by
  interval_cases n <;> rfl

theorem toNat_ofNat_sub (n : Nat) (h1 : 97 ≤ n) (h2 : n ≤ 122) :
    (Char.ofNat (n - 32)).toNat = n - 32 := by
  interval_cases n <;> rfl

theorem toLower_of_upper (c : Char) (h : 65 ≤ c.toNat ∧ c.toNat ≤ 90) :
    c.toLower = Char.ofNat (c.toNat + 32) := by
  simp only [Char.toLower, ge_iff_le, h, and_self, if_true]

theorem toLower_of_not_upper (c : Char) (h : ¬ (65 ≤ c.toNat ∧ c.toNat ≤ 90)) :
    c.toLower = c := by
  simp only [Char.toLower, ge_iff_le, h, if_false]

theorem toUpper_of_lower (c : Char) (h : 97 ≤ c.toNat ∧ c.toNat ≤ 122) :
    c.toUpper = Char.ofNat (c.toNat - 32) := by
  simp only [Char.toUpper, ge_iff_le, h, and_self, if_true]

theorem toUpper_of_not_lower (c : Char) (h : ¬ (97 ≤ c.toNat ∧ c.toNat ≤ 122)) :
    c.toUpper = c := by
  simp only [Char.toUpper, ge_iff_le, h, if_false]

theorem toLower_toLower (c : Char) : c.toLower.toLower = c.toLower := by
  by_cases h : 65 ≤ c.toNat ∧ c.toNat ≤ 90
  · rw [toLower_of_upper c h]
    apply toLower_of_not_upper
    rw [toNat_ofNat_add _ h.1 h.2]
    omega
  · rw [toLower_of_not_upper c h, toLower_of_not_upper c h]

theorem toLower_toUpper (c : Char) : c.toUpper.toLower = c.toLower := by
  by_cases h : 97 ≤ c.toNat ∧ c.toNat ≤ 122
  · have hn := toNat_ofNat_sub _ h.1 h.2
    rw [toUpper_of_lower c h, toLower_of_not_upper c (by omega)]
    rw [toLower_of_upper _ (by rw [hn]; omega), hn]
    have hc : c.toNat - 32 + 32 = c.toNat := by omega
    rw [hc]
    exact Char.ofNat_toNat c
  · rw [toUpper_of_not_lower c h]

theorem toLowerCase_toLowerCase (s : String) :
    toLowerCase (toLowerCase s) = toLowerCase s := by
  simp [toLowerCase, List.map_map, Function.comp_def, toLower_toLower]

theorem toLowerCase_toUpperCase (s : String) :
    toLowerCase (toUpperCase s) = toLowerCase s := by
  simp [toLowerCase, toUpperCase, List.map_map, Function.comp_def, toLower_toUpper]

/-! ## The extension check -/

theorem endsWith_iff (s suffix : String) :
    endsWith s suffix = true ↔ ∃ stem : String, s = stem ++ suffix := by
  unfold endsWith
  rw [List.isSuffixOf_iff_suffix]
  constructor
  · rintro ⟨t, ht⟩
    refine ⟨⟨t⟩, ?_⟩
    apply String.ext
    rw [String.data_append, ← ht]
  · rintro ⟨stem, rfl⟩
    exact ⟨stem.data, (String.data_append _ _).symm⟩

/-- C2: `isValidFile` accepts a file exactly when its lower-cased name is
some stem followed by one of `.txt`, `.pdf`, `.doc`, `.docx`, `.md`; the
answer is the same for the lower-cased and for the upper-cased name;
`report.txt.exe` is rejected and `REPORT.PDF` accepted, whatever the size. -/
theorem isValidFile_iff_suffix (file : File) :
    (isValidFile file = true ↔
      ∃ ext ∈ [".txt", ".pdf", ".doc", ".docx", ".md"],
        ∃ stem : String, toLowerCase file.name = stem ++ ext)
    ∧ isValidFile { file with name := toLowerCase file.name } = isValidFile file
    ∧ isValidFile { file with name := toUpperCase file.name } = isValidFile file
    ∧ isValidFile { file with name := "report.txt.exe" } = false
    ∧ isValidFile { file with name := "REPORT.PDF" } = true := by
  refine ⟨?_, ?_, ?_, ?_, ?_⟩
  · unfold isValidFile validExtensions
    rw [List.any_eq_true]
    constructor
    · rintro ⟨ext, hmem, hext⟩
      exact ⟨ext, hmem, (endsWith_iff _ _).1 hext⟩
    · rintro ⟨ext, hmem, hext⟩
      exact ⟨ext, hmem, (endsWith_iff _ _).2 hext⟩
  · simp only [isValidFile, toLowerCase_toLowerCase]
  · simp only [isValidFile, toLowerCase_toUpperCase]
  · show (validExtensions.any fun ext => endsWith (toLowerCase "report.txt.exe") ext) = false
    decide
  · show (validExtensions.any fun ext => endsWith (toLowerCase "REPORT.PDF") ext) = true
    decide

/-! ## The size formatter -/

theorem mathRound_eq_round (num den : Nat) (h : 0 < den) :
    (mathRound num den : ℤ) = round ((num : ℚ) / den) := by
  have hd : (0 : ℚ) < den := by exact_mod_cast h
  have hx : (num : ℚ) / den + 1 / 2 = ((2 * num + den : ℕ) : ℚ) / ((2 * den : ℕ) : ℚ) := by
    push_cast
    field_simp
    ring
  rw [round_eq, hx, ← Int.natCast_floor_eq_floor (by positivity), Nat.floor_div_eq_div]
  rfl

theorem formatFileSize_of_log (n i : Nat) (h1 : 1024 ^ i ≤ n) (h2 : n < 1024 ^ (i + 1)) :
    formatFileSize n =
      showHundredths (mathRound (n * 100) (1024 ^ i)) ++ " " ++ (sizes[i]?).getD "undefined" := by
  have hn : n ≠ 0 := by
    have : 0 < 1024 ^ i := by positivity
    omega
  have hlog : Nat.log 1024 n = i := Nat.log_eq_of_pow_le_of_lt_pow h1 h2
  simp only [formatFileSize, hn, if_false, hlog]

theorem specUnit_bytes (n : Nat) (h : n < 1024) (h0 : 0 < n) : specUnit n = ("Bytes", 1) := by
  have a : decide (1 ≤ n) = true := by simpa using h0
  have b : decide (1024 ≤ n) = false := by simpa using h
  have c : decide (1048576 ≤ n) = false := by
    simp only [decide_eq_false_iff_not]; omega
  simp [specUnit, specUnits, List.filter, a, b, c]

theorem specUnit_kb (n : Nat) (h1 : 1024 ≤ n) (h2 : n < 1024 ^ 2) : specUnit n = ("KB", 1024) := by
  have a : decide (1 ≤ n) = true := by simp only [decide_eq_true_eq]; omega
  have b : decide (1024 ≤ n) = true := by simpa using h1
  have c : decide (1048576 ≤ n) = false := by simpa using h2
  simp [specUnit, specUnits, List.filter, a, b, c]

theorem specUnit_mb (n : Nat) (h1 : 1024 ^ 2 ≤ n) : specUnit n = ("MB", 1024 ^ 2) := by
  have a : decide (1 ≤ n) = true := by simp only [decide_eq_true_eq]; omega
  have b : decide (1024 ≤ n) = true := by simp only [decide_eq_true_eq]; omega
  have c : decide (1048576 ≤ n) = true := by simpa using h1
  simp [specUnit, specUnits, List.filter, a, b, c]

/-- Below one gibibyte the formatter is the specification's text. -/
theorem formatFileSize_eq_spec (n : Nat) (h0 : 0 < n) (h : n < 1024 ^ 3) :
    formatFileSize n = specFormatFileSize n := by
  by_cases hk : n < 1024
  · rw [formatFileSize_of_log n 0 (by simpa using h0) (by simpa using hk)]
    simp [specFormatFileSize, specUnit_bytes n hk h0, sizes]
  · by_cases hm : n < 1024 ^ 2
    · rw [formatFileSize_of_log n 1 (by omega) (by omega)]
      simp [specFormatFileSize, specUnit_kb n (by omega) hm, sizes]
    · rw [formatFileSize_of_log n 2 (by omega) (by omega)]
      simp [specFormatFileSize, specUnit_mb n (by omega), sizes]

/-- C4: the four sample sizes print as `0 Bytes`, `1 KB`, `1.5 KB` and
`1 MB`. -/
theorem formatFileSize_samples :
    formatFileSize 0 = "0 Bytes" ∧ formatFileSize 1024 = "1 KB"
      ∧ formatFileSize 1536 = "1.5 KB" ∧ formatFileSize 1048576 = "1 MB" := by
  refine ⟨rfl, ?_, ?_, ?_⟩
  · rw [formatFileSize_of_log 1024 1 (by norm_num) (by norm_num)]; decide
  · rw [formatFileSize_of_log 1536 1 (by norm_num) (by norm_num)]; decide
  · rw [formatFileSize_of_log 1048576 2 (by norm_num) (by norm_num)]; decide

/-- C3: at one gibibyte the formatter reads past the end of `sizes` and
prints `1 undefined`, where the specification's text is `1024 MB`. -/
theorem formatFileSize_gibibyte :
    formatFileSize 1073741824 = "1 undefined"
      ∧ specFormatFileSize 1073741824 = "1024 MB" := by
  constructor
  · rw [formatFileSize_of_log 1073741824 3 (by norm_num) (by norm_num)]; decide
  · rw [specFormatFileSize, specUnit_mb 1073741824 (by norm_num)]; decide

/-! ## Selecting a file -/

/-- A dropped file enables submission exactly when it passes the check. -/
theorem handleDrop_enables_iff (file : File) (rest : List File) (p : Page)
    (h : p.analyzeDisabled = true) :
    (handleDrop (file :: rest) p).analyzeDisabled = false ↔ isValidFile file = true := by
  unfold handleDrop
  by_cases hv : isValidFile file = true
  · simp [hv, updateFileDisplay]
  · simp [hv, showError, h]

/-- C1: a file chosen through the file chooser enables submission although
its name has no accepted extension; the same file dropped on the drop zone
leaves submission disabled. -/
theorem chooser_enables_unchecked_file :
    (initialWorld sampleOrigin).page.analyzeDisabled = true
      ∧ isValidFile sampleProgram = false
      ∧ (step (initialWorld sampleOrigin) (.change [sampleProgram])).page.analyzeDisabled = false
      ∧ (step (initialWorld sampleOrigin) (.drop [sampleProgram])).page.analyzeDisabled = true := by
  refine ⟨rfl, ?_, rfl, ?_⟩ <;> decide

/-! ## Visible sections -/

theorem showError_visibleCount (message : String) (p : Page) :
    (showError message p).visibleCount = 1 := rfl

theorem resetForm_visibleCount (p : Page) : (resetForm p).visibleCount = 1 := rfl

theorem handleSubmit_visibleCount (p : Page) : (handleSubmit p).1.visibleCount = 1 := by
  unfold handleSubmit
  cases p.files.head? <;> rfl

/-- C5: when the health probe fails while an analyze request is in flight
and that request then succeeds, the error section and the results section
are both visible. -/
theorem lateProbe_shows_two_sections :
    (initialWorld sampleOrigin).page.visibleCount = 1
      ∧ (run (initialWorld sampleOrigin) lateProbe).page.errorVisible = true
      ∧ (run (initialWorld sampleOrigin) lateProbe).page.resultsVisible = true
      ∧ (run (initialWorld sampleOrigin) lateProbe).page.visibleCount = 2 := by
  refine ⟨rfl, ?_, ?_, ?_⟩ <;> decide

/-! ## Values and fallbacks -/

theorem jsToString_orElse_str (s fallback : String) (h : s ≠ "") :
    jsToString (orElse (some (.str s)) fallback) = .ok s := by
  have ht : (Json.str s).truthy = true := by simpa [Json.truthy] using h
  simp [orElse, ht, jsToString]

theorem jsToString_orElse_falsy (field : JsValue) (fallback : String)
    (h : JsValue.truthy field = false) :
    jsToString (orElse field fallback) = .ok fallback := by
  cases field with
  | none => simp [orElse, jsToString]
  | some v =>
      have hv : v.truthy = false := h
      simp [orElse, hv, jsToString]

theorem catchSubmit_of_ne (message : String) (p : Page) (h : message ≠ "") :
    catchSubmit message p = showError message p := by
  have hb : (message != "") = true := by simpa using h
  simp [catchSubmit, hb]

theorem serverError_ne_empty (status : Nat) : "Server error: " ++ toString status ≠ "" := by
  intro h
  have hl := congrArg String.length h
  rw [String.length_append] at hl
  have h14 : "Server error: ".length = 14 := by decide
  have h0 : "".length = 0 := by decide
  omega

/-! ## Submit on a failed response -/

theorem lt_length_of_getElem? {α : Type} (l : List α) (i : Nat) (a : α) (h : l[i]? = some a) :
    i < l.length := by
  by_contra hn
  rw [List.getElem?_eq_none (by omega)] at h
  cases h

/-- A suspended submission whose response has a failing status runs
`afterErrorBody` on the page, in two turns of the event loop. -/
theorem run_failure_page (w : World) (i : Nat) (r : Response)
    (hi : w.submits[i]? = some Stage.fetching) (hr : r.ok = false) :
    (run w [.fetchSettled i (.resolved r), .resume i]).page = afterErrorBody r w.page := by
  have hlt := lt_length_of_getElem? _ _ _ hi
  have hset : (w.submits.set i (Stage.readingError r))[i]? = some (Stage.readingError r) := by
    rw [List.getElem?_set_self hlt]
  simp only [run, List.foldl_cons, List.foldl_nil]
  simp only [step, hi, afterFetch, hr, Bool.not_false, if_true, settle, hset, resumeSubmit]

theorem afterErrorBody_unparseable (r : Response) (p : Page) (m : String)
    (h : r.body = .unparseable m) :
    afterErrorBody r p = showError "Unknown error occurred" p := by
  unfold afterErrorBody
  rw [h]
  rfl

theorem afterErrorBody_field (r : Response) (p : Page) (v : Json) (field : JsValue)
    (thrown : String) (h : r.body = .parsed v) (hf : getProp v "error" = .ok field)
    (ht : jsToString (orElse field ("Server error: " ++ toString r.status)) = .ok thrown) :
    afterErrorBody r p = catchSubmit thrown p := by
  unfold afterErrorBody
  rw [h]
  simp only [hf, ht]

theorem afterErrorBody_errorPhase (r : Response) (p : Page) :
    (afterErrorBody r p).uploadVisible = false ∧ (afterErrorBody r p).loadingVisible = false
      ∧ (afterErrorBody r p).resultsVisible = false ∧ (afterErrorBody r p).errorVisible = true := by
  have h : ∃ m, afterErrorBody r p = catchSubmit m p := by
    unfold afterErrorBody
    generalize (match r.body with
      | .unparseable _ => Json.obj [("error", .str "Unknown error occurred")]
      | .parsed value => value) = errorData
    dsimp only
    split
    · exact ⟨_, rfl⟩
    · split
      · exact ⟨_, rfl⟩
      · exact ⟨_, rfl⟩
  obtain ⟨m, hm⟩ := h
  rw [hm]
  exact ⟨rfl, rfl, rfl, rfl⟩

/-- C6, as the script has it: for a failing status, a submission whose
request is in flight ends in the Error phase; the message is
`Unknown error occurred` when the body is not parseable JSON, the `error`
field when that is non-empty text, and `Server error: ` followed by the
status when the body parses to a value whose `error` field is absent or
falsy. -/
theorem submit_failure_message (w : World) (i : Nat) (r : Response)
    (hi : w.submits[i]? = some Stage.fetching) (hr : r.ok = false) :
    ((run w [.fetchSettled i (.resolved r), .resume i]).page.uploadVisible = false
      ∧ (run w [.fetchSettled i (.resolved r), .resume i]).page.loadingVisible = false
      ∧ (run w [.fetchSettled i (.resolved r), .resume i]).page.resultsVisible = false
      ∧ (run w [.fetchSettled i (.resolved r), .resume i]).page.errorVisible = true)
    ∧ (∀ m : String, r.body = .unparseable m →
        (run w [.fetchSettled i (.resolved r), .resume i]).page.errorMessage
          = "Unknown error occurred")
    ∧ (∀ (v : Json) (s : String), r.body = .parsed v →
        getProp v "error" = .ok (some (.str s)) → s ≠ "" →
        (run w [.fetchSettled i (.resolved r), .resume i]).page.errorMessage = s)
    ∧ (∀ (v : Json) (field : JsValue), r.body = .parsed v →
        getProp v "error" = .ok field → JsValue.truthy field = false →
        (run w [.fetchSettled i (.resolved r), .resume i]).page.errorMessage
          = "Server error: " ++ toString r.status) := by
  rw [run_failure_page w i r hi hr]
  refine ⟨afterErrorBody_errorPhase r w.page, ?_, ?_, ?_⟩
  · intro m hm
    rw [afterErrorBody_unparseable r _ m hm]
    rfl
  · intro v s hv hf hs
    rw [afterErrorBody_field r _ v _ s hv hf (jsToString_orElse_str s _ hs),
      catchSubmit_of_ne s _ hs]
    rfl
  · intro v field hv hf ht
    rw [afterErrorBody_field r _ v _ _ hv hf (jsToString_orElse_falsy field _ ht),
      catchSubmit_of_ne _ _ (serverError_ne_empty r.status)]
    rfl

/-- C6 witness: the sample submission in flight, answered with status 404
and the body `\x7b\x7d`. -/
theorem submit_failure_message_witness :
    (run loadingWorld
        [.fetchSettled 0 (.resolved ⟨404, .parsed (.obj [])⟩), .resume 0]).page.errorVisible = true
      ∧ (run loadingWorld
        [.fetchSettled 0 (.resolved ⟨404, .parsed (.obj [])⟩), .resume 0]).page.errorMessage
          = "Server error: 404" :=
  ⟨(submit_failure_message loadingWorld 0 ⟨404, .parsed (.obj [])⟩ rfl rfl).1.2.2.2,
    (submit_failure_message loadingWorld 0 ⟨404, .parsed (.obj [])⟩ rfl rfl).2.2.2
      (.obj []) none rfl rfl rfl⟩

/-- C6 counterexample: status 500 with a body that is not JSON shows
`Unknown error occurred`, not `Server error: 500`. -/
theorem unparseable_failure_message :
    sampleFailure.ok = false
      ∧ (run loadingWorld [.fetchSettled 0 (.resolved sampleFailure), .resume 0]).page.errorMessage
          = "Unknown error occurred"
      ∧ (run loadingWorld [.fetchSettled 0 (.resolved sampleFailure), .resume 0]).page.errorMessage
          ≠ "Server error: " ++ toString sampleFailure.status := by
  refine ⟨?_, ?_, ?_⟩ <;> decide

/-! ## Downloading a report -/

theorem getProp_of_truthy (v : Json) (key : String) (h : v.truthy = true) :
    ∃ x, getProp v key = .ok x := by
  cases v with
  | null => cases h
  | bool b => exact ⟨none, rfl⟩
  | num n => exact ⟨none, rfl⟩
  | str s => exact ⟨none, rfl⟩
  | arr xs => exact ⟨none, rfl⟩
  | obj kvs => exact ⟨_, rfl⟩

theorem downloadReport_of_falsy (p : Page) (t : ReportType) (field : JsValue)
    (hres : p.currentResults.truthy = true)
    (hget : getProp p.currentResults (reportKeyMap t) = .ok field)
    (habs : JsValue.truthy field = false) :
    downloadReport t p = showError ("No " ++ t.name ++ " report available.") p := by
  obtain ⟨reportId, hid⟩ := getProp_of_truthy p.currentResults "report_id" hres
  unfold downloadReport
  simp only [hres, Bool.not_true, Bool.false_eq_true, if_false, hget, hid, habs, Bool.not_false,
    if_true]

/-- C7, as the script has it: with a result stored and the asked report
absent from it (or falsy), `downloadReport` shows the message
`No <type> report available.`, adds no download, and moves the page to the
Error phase: the error section becomes the only visible one. -/
theorem downloadReport_missing (p : Page) (t : ReportType) (field : JsValue)
    (hres : p.currentResults.truthy = true)
    (hget : getProp p.currentResults (reportKeyMap t) = .ok field)
    (habs : JsValue.truthy field = false) :
    (downloadReport t p).errorMessage = "No " ++ t.name ++ " report available."
      ∧ (downloadReport t p).downloads = p.downloads
      ∧ (downloadReport t p).uploadVisible = false
      ∧ (downloadReport t p).loadingVisible = false
      ∧ (downloadReport t p).resultsVisible = false
      ∧ (downloadReport t p).errorVisible = true := by
  rw [downloadReport_of_falsy p t field hres hget habs]
  exact ⟨rfl, rfl, rfl, rfl, rfl, rfl⟩

/-- C7 witness: the legal report asked of the sample result, which lacks
it. -/
theorem downloadReport_missing_witness :
    resultsWorld.page.currentResults.truthy = true
      ∧ getProp resultsWorld.page.currentResults (reportKeyMap .legal) = .ok none
      ∧ (downloadReport .legal resultsWorld.page).errorMessage = "No legal report available."
      ∧ (downloadReport .legal resultsWorld.page).downloads = resultsWorld.page.downloads :=
  ⟨rfl, rfl,
    (downloadReport_missing resultsWorld.page .legal none rfl rfl rfl).1,
    (downloadReport_missing resultsWorld.page .legal none rfl rfl rfl).2.1⟩

/-- C7 counterexample: in the Results phase, asking for the missing legal
report hides the results section and shows the error section. -/
theorem downloadReport_leaves_results :
    resultsWorld.page.resultsVisible = true
      ∧ resultsWorld.page.errorVisible = false
      ∧ getProp resultsWorld.page.currentResults (reportKeyMap .legal) = .ok none
      ∧ (step resultsWorld (.downloadClick .legal)).page.resultsVisible = false
      ∧ (step resultsWorld (.downloadClick .legal)).page.errorVisible = true :=
  ⟨rfl, rfl, rfl, rfl, rfl⟩

/-! ## Reset and the guarded submit -/

/-- C8: from every state, the new-analysis click (`resetForm`) leaves the
upload section the only visible one, no file selected, the file-name display
empty, submission disabled, and no result stored. -/
theorem resetForm_clears (w : World) :
    (step w .newAnalysis).page.uploadVisible = true
      ∧ (step w .newAnalysis).page.loadingVisible = false
      ∧ (step w .newAnalysis).page.resultsVisible = false
      ∧ (step w .newAnalysis).page.errorVisible = false
      ∧ (step w .newAnalysis).page.files = []
      ∧ (step w .newAnalysis).page.fileNameText = ""
      ∧ (step w .newAnalysis).page.analyzeDisabled = true
      ∧ (step w .newAnalysis).page.currentResults = .null :=
  ⟨rfl, rfl, rfl, rfl, rfl, rfl, rfl, rfl⟩

/-- C9: with no file selected, a submit issues no request and suspends no
call, shows `Please select a file first.` in the Error phase, and leaves the
stored result and the progress steps as they were. -/
theorem submit_without_file (w : World) (h : w.page.files = []) :
    (step w .submit).page.requests = w.page.requests
      ∧ (step w .submit).submits = w.submits
      ∧ (step w .submit).page.errorMessage = "Please select a file first."
      ∧ (step w .submit).page.uploadVisible = false
      ∧ (step w .submit).page.loadingVisible = false
      ∧ (step w .submit).page.resultsVisible = false
      ∧ (step w .submit).page.errorVisible = true
      ∧ (step w .submit).page.currentResults = w.page.currentResults
      ∧ (step w .submit).page.steps = w.page.steps := by
  have hs : handleSubmit w.page = (showError "Please select a file first." w.page, none) := by
    unfold handleSubmit
    rw [h]
    rfl
  have hstep : step w .submit
      = { w with page := showError "Please select a file first." w.page } := by
    simp only [step, hs]
  rw [hstep]
  exact ⟨rfl, rfl, rfl, rfl, rfl, rfl, rfl, rfl, rfl⟩

/-- C9 witness: a submit on the freshly loaded page. -/
theorem submit_without_file_witness :
    (initialWorld sampleOrigin).page.files = []
      ∧ (step (initialWorld sampleOrigin) .submit).page.requests = [Request.health]
      ∧ (step (initialWorld sampleOrigin) .submit).page.errorMessage
          = "Please select a file first." :=
  ⟨rfl, (submit_without_file (initialWorld sampleOrigin) rfl).1,
    (submit_without_file (initialWorld sampleOrigin) rfl).2.2.1⟩

/-! ## Displaying the results -/

theorem paneShows_of_paneText (result : Json) (key fallback shown : String)
    (h : paneText result key fallback = .ok shown) : PaneShows result key fallback shown := by
  unfold paneText at h
  constructor
  · intro s hs hne
    rw [hs] at h
    simp only [jsToString_orElse_str s fallback hne] at h
    injection h with h
    exact h.symm
  · intro hn
    rw [hn] at h
    simp only [jsToString_orElse_falsy none fallback rfl] at h
    injection h with h
    exact h.symm

theorem paneText_of_fieldPrints (kvs : List (String × Json)) (key fallback : String)
    (h : fieldPrints (.obj kvs) key = true) :
    ∃ shown, paneText (.obj kvs) key fallback = .ok shown := by
  unfold fieldPrints at h
  unfold paneText
  simp only [getProp] at h ⊢
  cases hl : kvs.reverse.lookup key with
  | none => exact ⟨fallback, jsToString_orElse_falsy none fallback rfl⟩
  | some v =>
      rw [hl] at h
      by_cases hv : v.truthy = true
      · simp only [orElse, hv, if_true]
        cases hj : jsToString v with
        | ok t => exact ⟨t, rfl⟩
        | error m => simp [hj] at h
      · have hf : JsValue.truthy (some v) = false := by simpa [JsValue.truthy] using hv
        exact ⟨fallback, jsToString_orElse_falsy (some v) fallback hf⟩

/-- C10, as the script has it: for a result object whose five report
fields, where present, convert to text without throwing, `displayResults`
runs to its end; each of the five panes then shows its field when the field
holds non-empty text and its fixed fallback when the field is missing; the
results section is visible and the loading section hidden. -/
theorem displayResults_object (kvs : List (String × Json)) (p : Page)
    (h1 : fieldPrints (.obj kvs) "real_estate_report" = true)
    (h2 : fieldPrints (.obj kvs) "financial_modeling_report" = true)
    (h3 : fieldPrints (.obj kvs) "market_analysis_report" = true)
    (h4 : fieldPrints (.obj kvs) "legal_report" = true)
    (h5 : fieldPrints (.obj kvs) "orchestrator_report" = true) :
    (displayResults (.obj kvs) p).2 = none
      ∧ PaneShows (.obj kvs) "real_estate_report"
          "No real estate analysis available." (displayResults (.obj kvs) p).1.realEstateContent
      ∧ PaneShows (.obj kvs) "financial_modeling_report"
          "No financial modeling analysis available."
          (displayResults (.obj kvs) p).1.financialContent
      ∧ PaneShows (.obj kvs) "market_analysis_report"
          "No market analysis available." (displayResults (.obj kvs) p).1.marketContent
      ∧ PaneShows (.obj kvs) "legal_report"
          "No legal analysis available." (displayResults (.obj kvs) p).1.legalContent
      ∧ PaneShows (.obj kvs) "orchestrator_report"
          "No orchestrator report available." (displayResults (.obj kvs) p).1.orchestratorContent
      ∧ (displayResults (.obj kvs) p).1.resultsVisible = true
      ∧ (displayResults (.obj kvs) p).1.loadingVisible = false := by
  obtain ⟨t1, e1⟩ := paneText_of_fieldPrints kvs _ "No real estate analysis available." h1
  obtain ⟨t2, e2⟩ :=
    paneText_of_fieldPrints kvs _ "No financial modeling analysis available." h2
  obtain ⟨t3, e3⟩ := paneText_of_fieldPrints kvs _ "No market analysis available." h3
  obtain ⟨t4, e4⟩ := paneText_of_fieldPrints kvs _ "No legal analysis available." h4
  obtain ⟨t5, e5⟩ := paneText_of_fieldPrints kvs _ "No orchestrator report available." h5
  have hd : displayResults (.obj kvs) p =
      ({ p with
          realEstateContent := t1
          financialContent := t2
          marketContent := t3
          legalContent := t4
          orchestratorContent := t5
          loadingVisible := false
          resultsVisible := true }, none) := by
    simp only [displayResults, e1, e2, e3, e4, e5]
  rw [hd]
  exact ⟨rfl, paneShows_of_paneText _ _ _ _ e1, paneShows_of_paneText _ _ _ _ e2,
    paneShows_of_paneText _ _ _ _ e3, paneShows_of_paneText _ _ _ _ e4,
    paneShows_of_paneText _ _ _ _ e5, rfl, rfl⟩

/-- C10 witness: the sample result, four reports present and the legal one
missing, displayed on the loading page. -/
theorem displayResults_object_witness :
    (displayResults sampleResult loadingWorld.page).2 = none
      ∧ (displayResults sampleResult loadingWorld.page).1.marketContent = "Demand is rising."
      ∧ (displayResults sampleResult loadingWorld.page).1.legalContent
          = "No legal analysis available."
      ∧ (displayResults sampleResult loadingWorld.page).1.resultsVisible = true :=
  ⟨(displayResults_object sampleFields loadingWorld.page rfl rfl rfl rfl rfl).1,
    (displayResults_object sampleFields loadingWorld.page rfl rfl rfl rfl rfl).2.2.2.1.1
      "Demand is rising." rfl (by decide),
    (displayResults_object sampleFields loadingWorld.page rfl rfl rfl rfl rfl).2.2.2.2.1.2 rfl,
    (displayResults_object sampleFields loadingWorld.page rfl rfl rfl rfl rfl).2.2.2.2.2.2.1⟩

/-- C10 counterexample: for the result object whose first report is an
object with an own `toString` key, `displayResults` throws at its first
assignment: the results section stays hidden, the loading section stays
visible, the market pane is not set although its field holds text, and the
submission ends in the Error phase. -/
theorem displayResults_throws_on_object_field :
    loadingWorld.page.loadingVisible = true
      ∧ (displayResults hostileResult loadingWorld.page).2 = some toPrimitiveMessage
      ∧ (displayResults hostileResult loadingWorld.page).1.resultsVisible = false
      ∧ (displayResults hostileResult loadingWorld.page).1.loadingVisible = true
      ∧ getProp hostileResult "market_analysis_report" = .ok (some (.str "Demand is rising."))
      ∧ (displayResults hostileResult loadingWorld.page).1.marketContent ≠ "Demand is rising."
      ∧ (run loadingWorld hostileSubmit).page.resultsVisible = false
      ∧ (run loadingWorld hostileSubmit).page.errorVisible = true := by
  refine ⟨rfl, rfl, rfl, rfl, rfl, ?_, rfl, rfl⟩
  decide

end Baypoint
